import Mathlib

/-!
Shallow embedding of `youtube_sentiment/youtube.py`: the batched pagination
and response-flattening layer of a YouTube data-acquisition client.

JSON responses are modelled by the inductive `Json`; Python dictionary
indexing (`d[k]`, KeyError on a missing key), list indexing (IndexError),
and `str()` conversion are modelled explicitly.  Fallible Python code is
modelled in `Except PyError`; an `Except.error` result models an uncaught
Python exception (so "no partial table is produced" is an `error` result).
-/

/-- A JSON-like Python value, as returned by the Google API client. -/
inductive Json where
  | null : Json
  | str (s : String) : Json
  | num (n : Int) : Json
  | arr (elems : List Json) : Json
  | obj (fields : List (String × Json)) : Json
deriving Repr, Inhabited, BEq

/-- The kinds of Python exception the embedded code can raise:
`KeyError` (missing dict key), `IndexError` (list index out of range),
`TypeError` (operation on a value of the wrong shape), `RuntimeError`
(raised explicitly by the resolvers), and transport/API failures raised
by `request.execute()`. -/
inductive PyError where
  | keyError (key : String) : PyError
  | indexError : PyError
  | typeError : PyError
  | runtimeError (msg : String) : PyError
  | apiError (msg : String) : PyError
deriving Repr, DecidableEq, Inhabited

/-- Rendering of an exception, as printed by `print(str(e))` in the
paginator's `except` branch. -/
def PyError.message : PyError → String
  | .keyError k => "KeyError: " ++ k
  | .indexError => "IndexError: list index out of range"
  | .typeError => "TypeError"
  | .runtimeError m => "RuntimeError: " ++ m
  | .apiError m => m

/-- Python dict indexing `d[k]`: `KeyError` when the key is absent,
`TypeError` when the value is not a dict. -/
def Json.get : Json → String → Except PyError Json
  | .obj fields, k =>
    match fields.lookup k with
    | some v => .ok v
    | none => .error (.keyError k)
  | _, _ => .error .typeError

/-- A value used where Python needs a `str` (e.g. an element of
`",".join(...)`): `TypeError` otherwise. -/
def Json.asStr : Json → Except PyError String
  | .str s => .ok s
  | _ => .error .typeError

/-- A value iterated as a Python list (`for item in ...`): `TypeError`
when it is not a list. -/
def Json.asArr : Json → Except PyError (List Json)
  | .arr xs => .ok xs
  | _ => .error .typeError

/-- A value used in an integer comparison such as `reply_cnt > 0`:
`TypeError` when it is not a number. -/
def Json.asInt : Json → Except PyError Int
  | .num n => .ok n
  | _ => .error .typeError

/-- Python equality test of a value against a string literal, e.g.
`item["kind"] == "youtube#commentThread"`: values that are not strings
compare unequal. -/
def Json.isStrEq : Json → String → Bool
  | .str t, s => t == s
  | _, _ => false

/-- Python `str(x)` on a scalar JSON value (used on the API's integer
counts). -/
def pyStr : Json → String
  | .str s => s
  | .num n => toString n
  | .null => "None"
  | .arr _ => "TypeError"
  | .obj _ => "TypeError"

/-- Python list indexing `xs[i]`: `IndexError` when out of range. -/
def pyIndex (xs : List Json) (i : Nat) : Except PyError Json :=
  match xs.get? i with
  | some v => .ok v
  | none => .error .indexError

theorem ok_bind (a : α) (f : α → Except PyError β) :
    (Except.ok a >>= f) = f a := rfl

theorem error_bind (e : PyError) (f : α → Except PyError β) :
    ((Except.error e : Except PyError α) >>= f) = Except.error e := rfl

/-! ## Paginator (`Video.comment_threads` lines 54-77, `Channel.video_ids`
lines 258-288)

The `while request:` loop repeatedly executes a page request, iterates over
`response["items"]` appending the identifiers of items whose `kind` tag
matches, and follows the continuation cursor via `list_next` until it
returns `None`.  The external paginated source is modelled as a finite list
of page results: `Except.ok response` for a page whose `execute()` returns
`response`, `Except.error e` for a page whose `execute()` raises; the list
ending models `list_next` returning `None`.  Any exception inside the
`try` is printed and breaks the loop, keeping everything accumulated. -/

/-- The loop body run on one page's `response["items"]` (lines 68-70 and
277-281): each item either yields an identifier (`ok (some v)`), is
silently dropped for a non-matching `kind` (`ok none`), or raises.  A
raise stops the iteration; identifiers appended before it are kept. -/
def processItems (extract : Json → Except PyError (Option Json)) :
    List Json → List Json × Option PyError
  | [] => ([], none)
  | item :: rest =>
    match extract item with
    | .error e => ([], some e)
    | .ok none => processItems extract rest
    | .ok (some v) =>
      let res := processItems extract rest
      (v :: res.1, res.2)

/-- Executing one page request and obtaining its iterable `response["items"]`
(lines 66-68 and 275-277). -/
def pageItems (pr : Except PyError Json) : Except PyError (List Json) := do
  let response ← pr
  let itemsJ ← response.get "items"
  itemsJ.asArr

/-- The pagination loop (lines 64-75 and 273-287): accumulates identifiers
page by page; on any exception it prints the error and breaks, returning
what was accumulated so far.  Returns the accumulated identifiers together
with the log of printed error messages. -/
def paginate (extract : Json → Except PyError (Option Json)) :
    List (Except PyError Json) → List Json × List String
  | [] => ([], [])
  | pr :: rest =>
    match pageItems pr with
    | .error e => ([], [e.message])
    | .ok items =>
      match processItems extract items with
      | (acc, some e) => (acc, [e.message])
      | (acc, none) =>
        let res := paginate extract rest
        (acc ++ res.1, res.2)

/-- Item handling in `Video.comment_threads` (lines 68-70): keep
`item["id"]` when `item["kind"] == "youtube#commentThread"`. -/
def extractThreadId (item : Json) : Except PyError (Option Json) := do
  let k ← item.get "kind"
  if k.isStrEq "youtube#commentThread" then
    let v ← item.get "id"
    return some v
  else
    return none

/-- Item handling in `Channel.video_ids` (lines 277-281): keep
`item["snippet"]["resourceId"]["videoId"]` when the resource `kind` is
`"youtube#video"`. -/
def extractVideoId (item : Json) : Except PyError (Option Json) := do
  let s ← item.get "snippet"
  let resource ← s.get "resourceId"
  let k ← resource.get "kind"
  if k.isStrEq "youtube#video" then
    let v ← resource.get "videoId"
    return some v
  else
    return none

/-- `Video.comment_threads` as a function of the paginated source. -/
def comment_threads (pages : List (Except PyError Json)) : List Json :=
  (paginate extractThreadId pages).1

/-- `Channel.video_ids` as a function of the paginated source. -/
def video_ids (pages : List (Except PyError Json)) : List Json :=
  (paginate extractVideoId pages).1

/-- A successful page response carrying the given items, i.e.
`execute()` returning `{"items": [...]}`. -/
def mkPage (items : List Json) : Except PyError Json :=
  .ok (.obj [("items", .arr items)])

/-- Specification-side characterisation (from the spec's words, for the
refinement statements): the items of a source that match, in source
order. -/
def matchingItems (extract : Json → Except PyError (Option Json))
    (items : List Json) : List Json :=
  items.filterMap fun it =>
    match extract it with
    | .ok (some v) => some v
    | _ => none

/-! ## Batcher and table assembly (`Video.fetch_comments` lines 79-102,
`Channel.fetch_videos` lines 290-322)

`for i in range(0, len(ids), 50): batch = ids[i : i + 50]` partitions the
identifier list into contiguous chunks of at most 50, and each batch table
is concatenated onto the accumulator with `pl.concat([df, df2])`.  Tables
are modelled as lists of typed rows, so `pl.concat` on matching schemas is
list append. -/

/-- Python `range(0, stop, step)` for `step ≥ 1`. -/
def pyRange (stop step : Nat) : List Nat :=
  (List.range ((stop + step - 1) / step)).map (· * step)

/-- The batches visited by `for i in range(0, len(xs), 50)` with slice
`xs[i : i + 50]` (lines 96-97 and 316-317). -/
def batches50 (xs : List α) : List (List α) :=
  (pyRange xs.length 50).map fun i => (xs.drop i).take 50

/-- The batching loop of `fetch_comments` / `fetch_videos` (lines 96-100
and 316-320): start from the empty schema-typed table, fetch each 50-batch
in order and concatenate; an uncaught batch exception aborts the fetch. -/
def concatBatches (fetchBatch : List Json → Except PyError (List ρ))
    (ids : List Json) : Except PyError (List ρ) :=
  (batches50 ids).foldlM (fun df b => do
    let df2 ← fetchBatch b
    return df ++ df2) []

/-! ## RecordFlattener for comment threads (`Video._fetch_comment_batch`
lines 104-172) -/

/-- One row of the comment table (schema at lines 85-94).  The fields
passed through `str(...)` in the source are `String`; the fields appended
as they came from the response are kept as raw values. -/
structure CommentRow where
  comment : Json
  comment_dt : Json
  user_name : Json
  like_cnt : String
  reply_cnt : String
  replies : List Json
deriving Repr, BEq

/-- The reply loop (lines 154-158): `reply["snippet"]["textDisplay"]` for
each element of `item["replies"]["comments"]`, in order. -/
def extractReplyTexts : List Json → Except PyError (List Json)
  | [] => .ok []
  | r :: rest => do
    let s ← r.get "snippet"
    let t ← s.get "textDisplay"
    let ts ← extractReplyTexts rest
    return t :: ts

/-- Flattening of one comment-thread item (lines 133-160).  There is no
`kind` filter here: every item of the response is flattened.  `likeCount`
and `totalReplyCount` go through `str(...)`; when `totalReplyCount > 0`
the nested replies are flattened in API order, otherwise `replies` is the
empty list and `item["replies"]` is never read. -/
def flattenCommentItem (item : Json) : Except PyError CommentRow := do
  let snippet1 ← item.get "snippet"
  let tlc ← snippet1.get "topLevelComment"
  let top ← tlc.get "snippet"
  let comment ← top.get "textDisplay"
  let comment_dt ← top.get "publishedAt"
  let user_name ← top.get "authorDisplayName"
  let like_cnt ← top.get "likeCount"
  let snippet2 ← item.get "snippet"
  let reply_cnt ← snippet2.get "totalReplyCount"
  let n ← reply_cnt.asInt
  let replies ←
    if n > 0 then do
      let reps ← item.get "replies"
      let comments ← reps.get "comments"
      let commentList ← comments.asArr
      extractReplyTexts commentList
    else
      pure []
  return { comment := comment, comment_dt := comment_dt,
           user_name := user_name, like_cnt := pyStr like_cnt,
           reply_cnt := pyStr reply_cnt, replies := replies }

/-- The item loop of `_fetch_comment_batch` (lines 133-160): flatten every
item; the first raised exception aborts the whole batch (no partial table,
since the column lists never reach the `pl.DataFrame` constructor). -/
def flattenCommentItems : List Json → Except PyError (List CommentRow)
  | [] => .ok []
  | item :: rest => do
    let row ← flattenCommentItem item
    let rows ← flattenCommentItems rest
    return row :: rows

/-- The elements of `",".join(batch)` must all be `str`. -/
def asStrList : List Json → Except PyError (List String)
  | [] => .ok []
  | v :: rest => do
    let s ← v.asStr
    let ss ← asStrList rest
    return s :: ss

/-- `Video._fetch_comment_batch` (lines 104-172) as a function of the
request executor: join the batch ids, execute the list request, flatten
every item of `response["items"]` into one row each. -/
def fetchCommentBatch (execute : String → Except PyError Json)
    (comment_batch : List Json) : Except PyError (List CommentRow) := do
  let idStrs ← asStrList comment_batch
  let comment_ids := String.intercalate "," idStrs
  let response ← execute comment_ids
  let itemsJ ← response.get "items"
  let items ← itemsJ.asArr
  flattenCommentItems items

/-- `Video.fetch_comments` (lines 79-102): batch the thread ids 50 at a
time and concatenate the batch tables in order. -/
def fetch_comments (execute : String → Except PyError Json)
    (threads : List Json) : Except PyError (List CommentRow) :=
  concatBatches (fetchCommentBatch execute) threads

/-! ## RecordFlattener for videos (`Channel._fetch_video_batch`
lines 324-405) -/

/-- One row of the video table (schema at lines 302-314).  Every field,
the statistics counts included, is appended exactly as it came from the
response: no `str(...)` conversion occurs in `_fetch_video_batch`. -/
structure VideoRow where
  video_id : Json
  published_dt : Json
  video_title : Json
  video_description : Json
  video_tags : Json
  view_cnt : Json
  like_cnt : Json
  fave_cnt : Json
  comment_cnt : Json
deriving Repr, BEq

/-- Flattening of one video item (lines 358-390): items whose `kind` is
not `"youtube#video"` are silently dropped (`ok none`); matching items
have id, snippet fields (including the unguarded `snippet["tags"]`) and
statistics fields extracted. -/
def flattenVideoItem (item : Json) : Except PyError (Option VideoRow) := do
  let k ← item.get "kind"
  if k.isStrEq "youtube#video" then
    let video_id ← item.get "id"
    let snippet ← item.get "snippet"
    let published_dt ← snippet.get "publishedAt"
    let video_title ← snippet.get "title"
    let video_description ← snippet.get "description"
    let video_tag ← snippet.get "tags"
    let stats ← item.get "statistics"
    let view_cnt ← stats.get "viewCount"
    let like_cnt ← stats.get "likeCount"
    let fave_cnt ← stats.get "favoriteCount"
    let comment_cnt ← stats.get "commentCount"
    return some { video_id := video_id, published_dt := published_dt,
                  video_title := video_title,
                  video_description := video_description,
                  video_tags := video_tag, view_cnt := view_cnt,
                  like_cnt := like_cnt, fave_cnt := fave_cnt,
                  comment_cnt := comment_cnt }
  else
    return none

/-- The item loop of `_fetch_video_batch` (lines 358-390): flatten the
matching items in order, dropping the non-matching ones; the first raised
exception aborts the whole batch. -/
def flattenVideoItems : List Json → Except PyError (List VideoRow)
  | [] => .ok []
  | item :: rest => do
    let row ← flattenVideoItem item
    let rows ← flattenVideoItems rest
    match row with
    | some r => return r :: rows
    | none => return rows

/-- `Channel._fetch_video_batch` (lines 324-405) as a function of the
request executor. -/
def fetchVideoBatch (execute : String → Except PyError Json)
    (video_batch : List Json) : Except PyError (List VideoRow) := do
  let idStrs ← asStrList video_batch
  let vids := String.intercalate "," idStrs
  let response ← execute vids
  let itemsJ ← response.get "items"
  let items ← itemsJ.asArr
  flattenVideoItems items

/-- `Channel.fetch_videos` (lines 290-322): batch the video ids 50 at a
time and concatenate the batch tables in order. -/
def fetch_videos (execute : String → Except PyError Json)
    (vids : List Json) : Except PyError (List VideoRow) :=
  concatBatches (fetchVideoBatch execute) vids

/-! ## EntityResolver (`Channel.channel_id` lines 220-237,
`Channel.uploads_id` lines 239-256) -/

/-- `Channel.channel_id` as a function of the channels-list response:
raise `RuntimeError` when more than one item is returned, otherwise
`response["items"][0]["id"]` (an `IndexError` surfaces on zero items). -/
def channel_id (response : Json) : Except PyError Json := do
  let itemsJ ← response.get "items"
  let items ← itemsJ.asArr
  if items.length > 1 then
    .error (.runtimeError "More than one response received, handle is ambiguous")
  else do
    let first ← pyIndex items 0
    first.get "id"

/-- `Channel.uploads_id` as a function of the channels-list response:
raise `RuntimeError` when more than one item is returned, otherwise
`response["items"][0]["contentDetails"]["relatedPlaylists"]["uploads"]`. -/
def uploads_id (response : Json) : Except PyError Json := do
  let itemsJ ← response.get "items"
  let items ← itemsJ.asArr
  if items.length > 1 then
    .error (.runtimeError "More than one response received, channel id ambiguous")
  else do
    let first ← pyIndex items 0
    let cd ← first.get "contentDetails"
    let rp ← cd.get "relatedPlaylists"
    rp.get "uploads"

/-! ## Properties of the batcher -/

theorem batches50_nil : batches50 ([] : List α) = [] := by
  simp [batches50, pyRange]

theorem batches50_cons (xs : List α) (h : xs ≠ []) :
    batches50 xs = xs.take 50 :: batches50 (xs.drop 50) := by
  have hn : 0 < xs.length := List.length_pos.mpr h
  have hq : (xs.length + 50 - 1) / 50 = ((xs.drop 50).length + 50 - 1) / 50 + 1 := by
    simp only [List.length_drop]
    omega
  unfold batches50 pyRange
  rw [hq, List.range_succ_eq_map]
  simp only [List.map_cons, List.map_map, Nat.zero_mul, List.drop_zero,
    List.cons.injEq, Function.comp_apply, true_and]
  apply List.map_congr_left
  intro k _
  simp only [Function.comp_apply]
  have hs : Nat.succ k * 50 = 50 + k * 50 := by omega
  rw [List.drop_drop, hs]

theorem batches50_join : ∀ (xs : List α), (batches50 xs).flatten = xs
  | [] => by simp [batches50, pyRange]
  | x :: rest => by
    rw [batches50_cons (x :: rest) (by simp)]
    have ih := batches50_join ((x :: rest).drop 50)
    rw [List.flatten_cons, ih, List.take_append_drop]
termination_by xs => xs.length
decreasing_by simp only [List.length_drop]; simp; omega

theorem batches50_length (xs : List α) :
    (batches50 xs).length = (xs.length + 49) / 50 := by
  simp [batches50, pyRange]

theorem batches50_size (xs : List α) :
    ∀ c ∈ batches50 xs, c.length ≤ 50 := by
  intro c hc
  obtain ⟨i, _, rfl⟩ := List.mem_map.mp hc
  exact List.length_take_le 50 _

theorem pure_eq_ok (a : α) : (pure a : Except PyError α) = Except.ok a := rfl

theorem foldBatches_ok (fetchBatch : List Json → Except PyError (List ρ))
    (tbl : List Json → List ρ) :
    ∀ (bs : List (List Json)) (acc : List ρ),
      (∀ b ∈ bs, fetchBatch b = .ok (tbl b)) →
      bs.foldlM (fun df b => do
        let df2 ← fetchBatch b
        return df ++ df2) acc = .ok (acc ++ (bs.map tbl).flatten)
  | [], acc, _ => by simp [List.foldlM, pure_eq_ok]
  | b :: bs, acc, h => by
    have hb : fetchBatch b = .ok (tbl b) := h b (by simp)
    have ih := foldBatches_ok fetchBatch tbl bs (acc ++ tbl b)
      (fun x hx => h x (by simp [hx]))
    simp only [List.foldlM, hb, ok_bind, pure_eq_ok] at ih ⊢
    rw [ih]
    simp [List.append_assoc]

theorem concatBatches_ok (fetchBatch : List Json → Except PyError (List ρ))
    (tbl : List Json → List ρ) (ids : List Json)
    (h : ∀ b ∈ batches50 ids, fetchBatch b = .ok (tbl b)) :
    concatBatches fetchBatch ids = .ok ((batches50 ids).map tbl).flatten := by
  unfold concatBatches
  rw [foldBatches_ok fetchBatch tbl (batches50 ids) [] h]
  simp

/-- C1: for every identifier list and batch size 50, the fetch operations
partition the list into `ceil(N / 50)` contiguous chunks of at most 50
each (0 chunks when `N = 0`), preserving order so the chunks concatenate
back to the original sequence, and `fetch_comments` / `fetch_videos`
concatenate the per-batch tables strictly in that batch order. -/
theorem c1_batching (ids : List Json) :
    (batches50 ids).length = (ids.length + 49) / 50
    ∧ (∀ c ∈ batches50 ids, c.length ≤ 50)
    ∧ (batches50 ids).flatten = ids
    ∧ (∀ (execute : String → Except PyError Json)
         (tbl : List Json → List CommentRow),
         (∀ b ∈ batches50 ids, fetchCommentBatch execute b = .ok (tbl b)) →
         fetch_comments execute ids = .ok ((batches50 ids).map tbl).flatten)
    ∧ (∀ (execute : String → Except PyError Json)
         (tbl : List Json → List VideoRow),
         (∀ b ∈ batches50 ids, fetchVideoBatch execute b = .ok (tbl b)) →
         fetch_videos execute ids = .ok ((batches50 ids).map tbl).flatten) :=
  ⟨batches50_length ids, batches50_size ids, batches50_join ids,
   fun execute tbl h => concatBatches_ok (fetchCommentBatch execute) tbl ids h,
   fun execute tbl h => concatBatches_ok (fetchVideoBatch execute) tbl ids h⟩

/-- C1 witness. -/
theorem c1_batching_witness :
    (batches50 [Json.str "a", Json.str "b"]).length = (2 + 49) / 50
    ∧ (batches50 [Json.str "a", Json.str "b"]).flatten
        = [Json.str "a", Json.str "b"]
    ∧ fetch_comments (fun _ => .ok (Json.obj [("items", Json.arr [])]))
        [Json.str "a", Json.str "b"]
      = .ok ((batches50 [Json.str "a", Json.str "b"]).map
          (fun _ => ([] : List CommentRow))).flatten := by
  obtain ⟨h1, _, h3, h4, _⟩ := c1_batching [Json.str "a", Json.str "b"]
  refine ⟨h1, h3, ?_⟩
  apply h4
  intro b hb
  have hbs : batches50 [Json.str "a", Json.str "b"]
      = [[Json.str "a", Json.str "b"]] := rfl
  rw [hbs] at hb
  simp only [List.mem_singleton] at hb
  subst hb
  rfl

/-! ## Properties of the paginator -/

theorem pageItems_mkPage (items : List Json) :
    pageItems (mkPage items) = .ok items := rfl

theorem pageItems_error (e : PyError) :
    pageItems (.error e) = .error e := rfl

theorem processItems_ok (extract : Json → Except PyError (Option Json)) :
    ∀ (items : List Json),
      (∀ item ∈ items, ∃ r, extract item = .ok r) →
      processItems extract items = (matchingItems extract items, none)
  | [], _ => rfl
  | item :: rest, h => by
    obtain ⟨r, hr⟩ := h item (by simp)
    have ih := processItems_ok extract rest (fun x hx => h x (by simp [hx]))
    cases r with
    | none => simp [processItems, matchingItems, List.filterMap_cons, hr, ih]
    | some v => simp [processItems, matchingItems, List.filterMap_cons, hr, ih]

theorem paginate_ok (extract : Json → Except PyError (Option Json)) :
    ∀ (pages : List (List Json)),
      (∀ item ∈ pages.flatten, ∃ r, extract item = .ok r) →
      paginate extract (pages.map mkPage) =
        (matchingItems extract pages.flatten, [])
  | [], _ => rfl
  | p :: rest, h => by
    have hp := processItems_ok extract p (fun x hx => h x (by simp [hx]))
    have ih := paginate_ok extract rest (fun x hx => h x (by simp [hx]))
    simp [paginate, pageItems_mkPage, hp, ih, matchingItems,
      List.filterMap_append]

theorem paginate_break (extract : Json → Except PyError (Option Json))
    (e : PyError) (rest : List (Except PyError Json)) :
    ∀ (pages : List (List Json)),
      (∀ item ∈ pages.flatten, ∃ r, extract item = .ok r) →
      paginate extract (pages.map mkPage ++ Except.error e :: rest) =
        (matchingItems extract pages.flatten, [e.message])
  | [], _ => by
    simp [paginate, pageItems_error, matchingItems]
  | p :: ps, h => by
    have hp := processItems_ok extract p (fun x hx => h x (by simp [hx]))
    have ih := paginate_break extract e rest ps (fun x hx => h x (by simp [hx]))
    simp [paginate, pageItems_mkPage, hp, ih, matchingItems,
      List.filterMap_append]

/-- C2: for every finite paginated source whose pages all succeed and whose
items are well formed, the paginators `comment_threads` and `video_ids`
return exactly the matching items (by `kind` tag) in source order, silently
dropping items of any other kind; termination is inherent since `paginate`
is a total function of the finite page list (the source list ending models
`list_next` returning `None`). -/
theorem c2_pagination (pagesA pagesB : List (List Json))
    (hA : ∀ item ∈ pagesA.flatten, ∃ r, extractThreadId item = .ok r)
    (hB : ∀ item ∈ pagesB.flatten, ∃ r, extractVideoId item = .ok r) :
    comment_threads (pagesA.map mkPage)
      = matchingItems extractThreadId pagesA.flatten
    ∧ video_ids (pagesB.map mkPage)
      = matchingItems extractVideoId pagesB.flatten := by
  unfold comment_threads video_ids
  rw [paginate_ok extractThreadId pagesA hA,
    paginate_ok extractVideoId pagesB hB]
  exact ⟨rfl, rfl⟩

/-- A well-formed comment-thread item of the matching kind. -/
def ctItem (i : String) : Json :=
  .obj [("kind", .str "youtube#commentThread"), ("id", .str i)]

/-- An item of a non-matching kind, to be silently dropped. -/
def strayItem : Json :=
  .obj [("kind", .str "youtube#channel"), ("id", .str "x")]

/-- A well-formed playlist item whose resource is a video. -/
def vidResItem (v : String) : Json :=
  .obj [("snippet", .obj [("resourceId",
    .obj [("kind", .str "youtube#video"), ("videoId", .str v)])])]

/-- A playlist item whose resource is of a non-matching kind. -/
def strayResItem : Json :=
  .obj [("snippet", .obj [("resourceId",
    .obj [("kind", .str "youtube#playlist"), ("playlistId", .str "p")])])]

/-- C2 witness: two pages, four items, one of a non-matching kind. -/
theorem c2_pagination_witness :
    comment_threads ([[ctItem "t1", strayItem], [ctItem "t2"]].map mkPage)
      = [Json.str "t1", Json.str "t2"]
    ∧ video_ids ([[vidResItem "v1", strayResItem]].map mkPage)
      = [Json.str "v1"] := by
  have h := c2_pagination [[ctItem "t1", strayItem], [ctItem "t2"]]
    [[vidResItem "v1", strayResItem]]
    (by
      intro item hitem
      simp [ctItem, strayItem] at hitem
      rcases hitem with rfl | rfl | rfl
      · exact ⟨some (Json.str "t1"), rfl⟩
      · exact ⟨none, rfl⟩
      · exact ⟨some (Json.str "t2"), rfl⟩)
    (by
      intro item hitem
      simp [vidResItem, strayResItem] at hitem
      rcases hitem with rfl | rfl
      · exact ⟨some (Json.str "v1"), rfl⟩
      · exact ⟨none, rfl⟩)
  exact ⟨h.1.trans rfl, h.2.trans rfl⟩

/-- C3: if some page request raises, the paginator aborts immediately
(the result does not depend on the unfetched remainder `restA`/`restB`),
lets no exception escape (`paginate` is total, returning a pair), logs the
error message, and returns exactly the items accumulated from the pages
fetched before the failure. -/
theorem c3_partial_failure (pagesA pagesB : List (List Json)) (e f : PyError)
    (restA restB : List (Except PyError Json))
    (hA : ∀ item ∈ pagesA.flatten, ∃ r, extractThreadId item = .ok r)
    (hB : ∀ item ∈ pagesB.flatten, ∃ r, extractVideoId item = .ok r) :
    paginate extractThreadId (pagesA.map mkPage ++ Except.error e :: restA)
      = (matchingItems extractThreadId pagesA.flatten, [e.message])
    ∧ comment_threads (pagesA.map mkPage ++ Except.error e :: restA)
      = matchingItems extractThreadId pagesA.flatten
    ∧ paginate extractVideoId (pagesB.map mkPage ++ Except.error f :: restB)
      = (matchingItems extractVideoId pagesB.flatten, [f.message])
    ∧ video_ids (pagesB.map mkPage ++ Except.error f :: restB)
      = matchingItems extractVideoId pagesB.flatten := by
  have h1 := paginate_break extractThreadId e restA pagesA hA
  have h2 := paginate_break extractVideoId f restB pagesB hB
  refine ⟨h1, ?_, h2, ?_⟩
  · unfold comment_threads
    rw [h1]
  · unfold video_ids
    rw [h2]

/-- C3 witness: a source that fails on page 2 of 3 yields exactly the
items of page 1 and logs the failure. -/
theorem c3_partial_failure_witness :
    paginate extractThreadId
        [mkPage [ctItem "t1"], Except.error (.apiError "rate limit"),
         mkPage [ctItem "t3"]]
      = ([Json.str "t1"], ["rate limit"])
    ∧ comment_threads
        [mkPage [ctItem "t1"], Except.error (.apiError "rate limit"),
         mkPage [ctItem "t3"]]
      = [Json.str "t1"]
    ∧ video_ids
        [mkPage [vidResItem "v1"], Except.error (.apiError "boom")]
      = [Json.str "v1"] := by
  have h := c3_partial_failure [[ctItem "t1"]] [[vidResItem "v1"]]
    (.apiError "rate limit") (.apiError "boom")
    [mkPage [ctItem "t3"]] []
    (by
      intro item hitem
      simp [ctItem] at hitem
      subst hitem
      exact ⟨some (Json.str "t1"), rfl⟩)
    (by
      intro item hitem
      simp [vidResItem] at hitem
      subst hitem
      exact ⟨some (Json.str "v1"), rfl⟩)
  exact ⟨h.1.trans rfl, h.2.1.trans rfl, h.2.2.2.trans rfl⟩

/-! ## Sample response items for the witnesses and counterexamples -/

/-- A top-level comment snippet with all expected fields. -/
def sampleTopSnippet : Json := .obj [
  ("textDisplay", .str "great video"),
  ("publishedAt", .str "2024-01-01T00:00:00Z"),
  ("authorDisplayName", .str "alice"),
  ("likeCount", .num 3)]

/-- A reply carrying the given display text. -/
def sampleReply (t : String) : Json :=
  .obj [("snippet", .obj [("textDisplay", .str t)])]

/-- A comment-thread item with `totalReplyCount = 2` and two replies. -/
def sampleCommentItem : Json := .obj [
  ("kind", .str "youtube#commentThread"),
  ("snippet", .obj [
    ("topLevelComment", .obj [("snippet", sampleTopSnippet)]),
    ("totalReplyCount", .num 2)]),
  ("replies", .obj [("comments",
    .arr [sampleReply "first", sampleReply "second"])])]

/-- A comment-thread item with `totalReplyCount = 0`, carrying no reply
data at all (no `"replies"` key) and no `"kind"` key either. -/
def sampleCommentItemNoReplies : Json := .obj [
  ("snippet", .obj [
    ("topLevelComment", .obj [("snippet", sampleTopSnippet)]),
    ("totalReplyCount", .num 0)])]

/-- A comment-thread item whose top-level snippet is missing the
`authorDisplayName` field. -/
def badCommentItem : Json := .obj [
  ("snippet", .obj [
    ("topLevelComment", .obj [("snippet", .obj [
      ("textDisplay", .str "hello"),
      ("publishedAt", .str "2024-03-03T00:00:00Z")])]),
    ("totalReplyCount", .num 0)])]

/-- A video snippet with all expected fields, tags included. -/
def sampleVideoSnippet : Json := .obj [
  ("publishedAt", .str "2024-02-02T00:00:00Z"),
  ("title", .str "a title"),
  ("description", .str "a description"),
  ("tags", .arr [.str "tag1", .str "tag2"])]

/-- A video snippet with no `tags` field. -/
def sampleVideoSnippetNoTags : Json := .obj [
  ("publishedAt", .str "2024-02-02T00:00:00Z"),
  ("title", .str "a title"),
  ("description", .str "a description")]

/-- Video statistics as the API provides them: strings. -/
def sampleVideoStats : Json := .obj [
  ("viewCount", .str "100"),
  ("likeCount", .str "10"),
  ("favoriteCount", .str "0"),
  ("commentCount", .str "4")]

/-- Video statistics carrying numeric values. -/
def sampleVideoStatsNum : Json := .obj [
  ("viewCount", .num 5),
  ("likeCount", .num 2),
  ("favoriteCount", .num 0),
  ("commentCount", .num 1)]

/-- A fully well-formed video item. -/
def sampleVideoItem : Json := .obj [
  ("kind", .str "youtube#video"),
  ("id", .str "vid1"),
  ("snippet", sampleVideoSnippet),
  ("statistics", sampleVideoStats)]

/-- A video item whose snippet has no `tags` field. -/
def sampleVideoItemNoTags : Json := .obj [
  ("kind", .str "youtube#video"),
  ("id", .str "vid2"),
  ("snippet", sampleVideoSnippetNoTags),
  ("statistics", sampleVideoStats)]

/-- A video item whose statistics are numeric. -/
def sampleVideoItemNum : Json := .obj [
  ("kind", .str "youtube#video"),
  ("id", .str "vidN"),
  ("snippet", sampleVideoSnippet),
  ("statistics", sampleVideoStatsNum)]

/-- The row `_fetch_video_batch` builds from `sampleVideoItemNum`. -/
def sampleNumRow : VideoRow := {
  video_id := .str "vidN",
  published_dt := .str "2024-02-02T00:00:00Z",
  video_title := .str "a title",
  video_description := .str "a description",
  video_tags := .arr [.str "tag1", .str "tag2"],
  view_cnt := .num 5,
  like_cnt := .num 2,
  fave_cnt := .num 0,
  comment_cnt := .num 1 }

/-! ## Flattening of comment threads -/

/-- C4: for every comment-thread item flattened by `_fetch_comment_batch`:
when `totalReplyCount > 0` and reply data is present, the record's
`replies` field is the ordered list of the replies' display texts in
API-returned order; when `totalReplyCount` is 0, `replies` is the empty
list — including when the item carries no reply data at all (the
`"replies"` key is never read on that branch), and it is an empty list,
never a null value (the field's type is a list). -/
theorem c4_comment_replies :
    (∀ (item sn tlc top c dt an lc rc reps cj : Json) (n : Int)
       (cl ts : List Json),
       item.get "snippet" = .ok sn →
       sn.get "topLevelComment" = .ok tlc →
       tlc.get "snippet" = .ok top →
       top.get "textDisplay" = .ok c →
       top.get "publishedAt" = .ok dt →
       top.get "authorDisplayName" = .ok an →
       top.get "likeCount" = .ok lc →
       sn.get "totalReplyCount" = .ok rc →
       rc.asInt = .ok n →
       0 < n →
       item.get "replies" = .ok reps →
       reps.get "comments" = .ok cj →
       cj.asArr = .ok cl →
       extractReplyTexts cl = .ok ts →
       flattenCommentItem item =
         .ok { comment := c, comment_dt := dt, user_name := an,
               like_cnt := pyStr lc, reply_cnt := pyStr rc, replies := ts })
    ∧ (∀ (item sn tlc top c dt an lc rc : Json) (er : PyError),
       item.get "snippet" = .ok sn →
       sn.get "topLevelComment" = .ok tlc →
       tlc.get "snippet" = .ok top →
       top.get "textDisplay" = .ok c →
       top.get "publishedAt" = .ok dt →
       top.get "authorDisplayName" = .ok an →
       top.get "likeCount" = .ok lc →
       sn.get "totalReplyCount" = .ok rc →
       rc.asInt = .ok (0 : Int) →
       item.get "replies" = .error er →
       flattenCommentItem item =
         .ok { comment := c, comment_dt := dt, user_name := an,
               like_cnt := pyStr lc, reply_cnt := pyStr rc,
               replies := [] }) := by
  constructor
  · intro item sn tlc top c dt an lc rc reps cj n cl ts
      h1 h2 h3 h4 h5 h6 h7 h8 h9 hn h10 h11 h12 h13
    simp [flattenCommentItem, h1, h2, h3, h4, h5, h6, h7, h8, h9, hn,
      h10, h11, h12, h13, ok_bind]
  · intro item sn tlc top c dt an lc rc er h1 h2 h3 h4 h5 h6 h7 h8 h9 h10
    simp [flattenCommentItem, h1, h2, h3, h4, h5, h6, h7, h8, h9, ok_bind]

/-- C4 witness: a thread with two replies flattens to the two reply texts
in order; a thread with `totalReplyCount = 0` and no reply data flattens
to the empty list. -/
theorem c4_comment_replies_witness :
    flattenCommentItem sampleCommentItem =
      .ok { comment := .str "great video",
            comment_dt := .str "2024-01-01T00:00:00Z",
            user_name := .str "alice", like_cnt := "3", reply_cnt := "2",
            replies := [.str "first", .str "second"] }
    ∧ flattenCommentItem sampleCommentItemNoReplies =
      .ok { comment := .str "great video",
            comment_dt := .str "2024-01-01T00:00:00Z",
            user_name := .str "alice", like_cnt := "3", reply_cnt := "0",
            replies := [] } := by
  constructor
  · have h := c4_comment_replies.1 sampleCommentItem _ _ _ _ _ _ _ _ _ _ 2 _
      [.str "first", .str "second"]
      rfl rfl rfl rfl rfl rfl rfl rfl rfl (by decide) rfl rfl rfl rfl
    exact h.trans rfl
  · have h := c4_comment_replies.2 sampleCommentItemNoReplies _ _ _ _ _ _ _ _
      (.keyError "replies") rfl rfl rfl rfl rfl rfl rfl rfl rfl rfl
    exact h.trans rfl

theorem get_items_mk (l : List Json) :
    (Json.obj [("items", Json.arr l)]).get "items" = .ok (.arr l) := rfl

theorem asArr_arr (l : List Json) : (Json.arr l).asArr = .ok l := rfl

theorem flattenCommentItems_append_error (err : PyError) :
    ∀ (pre : List Json) (rows : List CommentRow) (bad : Json)
      (post : List Json),
      flattenCommentItems pre = .ok rows →
      flattenCommentItem bad = .error err →
      flattenCommentItems (pre ++ bad :: post) = .error err
  | [], rows, bad, post, _, hbad => by
    simp [flattenCommentItems, hbad, error_bind]
  | p :: pre, rows, bad, post, hpre, hbad => by
    cases hp : flattenCommentItem p with
    | error e =>
      rw [flattenCommentItems, hp] at hpre
      simp [error_bind] at hpre
    | ok r =>
      cases hrest : flattenCommentItems pre with
      | error e =>
        rw [flattenCommentItems, hp, ok_bind, hrest] at hpre
        simp [error_bind] at hpre
      | ok rs =>
        have ih :=
          flattenCommentItems_append_error err pre rs bad post hrest hbad
        simp [flattenCommentItems, hp, ih, ok_bind, error_bind]

theorem flattenVideoItems_append_error (err : PyError) :
    ∀ (pre : List Json) (rows : List VideoRow) (bad : Json)
      (post : List Json),
      flattenVideoItems pre = .ok rows →
      flattenVideoItem bad = .error err →
      flattenVideoItems (pre ++ bad :: post) = .error err
  | [], rows, bad, post, _, hbad => by
    simp [flattenVideoItems, hbad, error_bind]
  | p :: pre, rows, bad, post, hpre, hbad => by
    cases hp : flattenVideoItem p with
    | error e =>
      rw [flattenVideoItems, hp] at hpre
      simp [error_bind] at hpre
    | ok r =>
      cases hrest : flattenVideoItems pre with
      | error e =>
        rw [flattenVideoItems, hp, ok_bind, hrest] at hpre
        simp [error_bind] at hpre
      | ok rs =>
        have ih :=
          flattenVideoItems_append_error err pre rs bad post hrest hbad
        simp [flattenVideoItems, hp, ih, ok_bind, error_bind]

/-- C5: in both batch flatteners, one response item with a missing
expected field makes the whole batch fetch return that lookup error
(`KeyError`), which propagates uncaught to the caller of the batch fetch
(`fetchCommentBatch` / `fetchVideoBatch` is an `Except.error`, so no
partial table is produced for the batch). -/
theorem c5_missing_field_aborts_batch :
    (∀ (pre post : List Json) (bad : Json) (rows : List CommentRow)
       (k : String) (execute : String → Except PyError Json)
       (ids : List Json) (ss : List String),
       asStrList ids = .ok ss →
       execute (String.intercalate "," ss) =
         .ok (Json.obj [("items", Json.arr (pre ++ bad :: post))]) →
       flattenCommentItems pre = .ok rows →
       flattenCommentItem bad = .error (.keyError k) →
       fetchCommentBatch execute ids = .error (.keyError k))
    ∧ (∀ (pre post : List Json) (bad : Json) (rows : List VideoRow)
       (k : String) (execute : String → Except PyError Json)
       (ids : List Json) (ss : List String),
       asStrList ids = .ok ss →
       execute (String.intercalate "," ss) =
         .ok (Json.obj [("items", Json.arr (pre ++ bad :: post))]) →
       flattenVideoItems pre = .ok rows →
       flattenVideoItem bad = .error (.keyError k) →
       fetchVideoBatch execute ids = .error (.keyError k)) := by
  constructor
  · intro pre post bad rows k execute ids ss hss hexec hpre hbad
    have hflat := flattenCommentItems_append_error (.keyError k)
      pre rows bad post hpre hbad
    simp [fetchCommentBatch, hss, hexec, get_items_mk, asArr_arr, hflat,
      ok_bind]
  · intro pre post bad rows k execute ids ss hss hexec hpre hbad
    have hflat := flattenVideoItems_append_error (.keyError k)
      pre rows bad post hpre hbad
    simp [fetchVideoBatch, hss, hexec, get_items_mk, asArr_arr, hflat,
      ok_bind]

/-- C5 witness: a batch whose second item is missing a field
(`authorDisplayName` for comments, `tags` for videos) aborts with that
`KeyError` even though its first item is well formed. -/
theorem c5_missing_field_aborts_batch_witness :
    fetchCommentBatch
      (fun _ => .ok (Json.obj [("items",
        Json.arr [sampleCommentItem, badCommentItem])]))
      [Json.str "t1"] = .error (.keyError "authorDisplayName")
    ∧ fetchVideoBatch
      (fun _ => .ok (Json.obj [("items",
        Json.arr [sampleVideoItem, sampleVideoItemNoTags])]))
      [Json.str "v1"] = .error (.keyError "tags") := by
  constructor
  · exact c5_missing_field_aborts_batch.1 [sampleCommentItem] []
      badCommentItem _ "authorDisplayName" _ [Json.str "t1"] ["t1"]
      rfl rfl rfl rfl
  · exact c5_missing_field_aborts_batch.2 [sampleVideoItem] []
      sampleVideoItemNoTags _ "tags" _ [Json.str "v1"] ["v1"]
      rfl rfl rfl rfl

/-- C6 counterexample: flattening a video item without a `tags` field does
NOT succeed — `snippet["tags"]` at line 375 is unguarded, so the flattener
raises `KeyError` and the whole batch aborts, contradicting the claim that
the absence is preserved. -/
theorem c6_tags_counterexample :
    flattenVideoItem sampleVideoItemNoTags = .error (.keyError "tags")
    ∧ fetchVideoBatch
        (fun _ => .ok (Json.obj [("items",
          Json.arr [sampleVideoItemNoTags])]))
        [Json.str "vid2"] = .error (.keyError "tags") :=
  ⟨rfl, rfl⟩

/-- C6 amended: the `tags` snippet field is extracted and preserved exactly
as given when it is present; when it is absent, flattening does not
tolerate the absence but raises the lookup error `KeyError "tags"`, which
aborts the batch. -/
theorem c6_tags_amended :
    (∀ (item k idv snippet pdt ttl dsc tags stats vc lc fv cc : Json),
       item.get "kind" = .ok k →
       k.isStrEq "youtube#video" = true →
       item.get "id" = .ok idv →
       item.get "snippet" = .ok snippet →
       snippet.get "publishedAt" = .ok pdt →
       snippet.get "title" = .ok ttl →
       snippet.get "description" = .ok dsc →
       snippet.get "tags" = .ok tags →
       item.get "statistics" = .ok stats →
       stats.get "viewCount" = .ok vc →
       stats.get "likeCount" = .ok lc →
       stats.get "favoriteCount" = .ok fv →
       stats.get "commentCount" = .ok cc →
       flattenVideoItem item =
         .ok (some { video_id := idv, published_dt := pdt,
                     video_title := ttl, video_description := dsc,
                     video_tags := tags, view_cnt := vc, like_cnt := lc,
                     fave_cnt := fv, comment_cnt := cc }))
    ∧ (∀ (item k idv snippet pdt ttl dsc : Json),
       item.get "kind" = .ok k →
       k.isStrEq "youtube#video" = true →
       item.get "id" = .ok idv →
       item.get "snippet" = .ok snippet →
       snippet.get "publishedAt" = .ok pdt →
       snippet.get "title" = .ok ttl →
       snippet.get "description" = .ok dsc →
       snippet.get "tags" = .error (.keyError "tags") →
       flattenVideoItem item = .error (.keyError "tags")) := by
  constructor
  · intro item k idv snippet pdt ttl dsc tags stats vc lc fv cc
      h1 h2 h3 h4 h5 h6 h7 h8 h9 h10 h11 h12 h13
    simp [flattenVideoItem, h1, h2, h3, h4, h5, h6, h7, h8, h9, h10, h11,
      h12, h13, ok_bind]
  · intro item k idv snippet pdt ttl dsc h1 h2 h3 h4 h5 h6 h7 h8
    simp [flattenVideoItem, h1, h2, h3, h4, h5, h6, h7, h8, ok_bind,
      error_bind]

/-- C6 amended witness: `sampleVideoItem` keeps its tags list verbatim;
`sampleVideoItemNoTags` raises `KeyError "tags"`. -/
theorem c6_tags_amended_witness :
    flattenVideoItem sampleVideoItem =
      .ok (some { video_id := .str "vid1",
                  published_dt := .str "2024-02-02T00:00:00Z",
                  video_title := .str "a title",
                  video_description := .str "a description",
                  video_tags := .arr [.str "tag1", .str "tag2"],
                  view_cnt := .str "100", like_cnt := .str "10",
                  fave_cnt := .str "0", comment_cnt := .str "4" })
    ∧ flattenVideoItem sampleVideoItemNoTags =
      .error (.keyError "tags") := by
  constructor
  · exact (c6_tags_amended.1 sampleVideoItem _ _ _ _ _ _ _ _ _ _ _ _
      rfl rfl rfl rfl rfl rfl rfl rfl rfl rfl rfl rfl rfl).trans rfl
  · exact c6_tags_amended.2 sampleVideoItemNoTags _ _ _ _ _ _
      rfl rfl rfl rfl rfl rfl rfl rfl

/-! ## EntityResolver properties -/

/-- C7: whenever the channels-list response contains more than one item,
both resolvers raise the fatal `RuntimeError` ambiguity error and produce
no identifier (the result is an `error`, not an `ok`). -/
theorem c7_ambiguity (response : Json) (items : List Json)
    (h : response.get "items" = .ok (.arr items))
    (hlen : 1 < items.length) :
    channel_id response =
      .error (.runtimeError "More than one response received, handle is ambiguous")
    ∧ uploads_id response =
      .error (.runtimeError "More than one response received, channel id ambiguous") := by
  constructor
  · simp [channel_id, h, asArr_arr, ok_bind, hlen]
  · simp [uploads_id, h, asArr_arr, ok_bind, hlen]

/-- C7 witness: a response with 2 items raises the ambiguity error in both
resolvers. -/
theorem c7_ambiguity_witness :
    channel_id (Json.obj [("items", Json.arr
        [Json.obj [("id", Json.str "c1")], Json.obj [("id", Json.str "c2")]])])
      = .error (.runtimeError "More than one response received, handle is ambiguous")
    ∧ uploads_id (Json.obj [("items", Json.arr
        [Json.obj [("id", Json.str "c1")], Json.obj [("id", Json.str "c2")]])])
      = .error (.runtimeError "More than one response received, channel id ambiguous") :=
  c7_ambiguity
    (Json.obj [("items", Json.arr
      [Json.obj [("id", Json.str "c1")], Json.obj [("id", Json.str "c2")]])])
    [Json.obj [("id", Json.str "c1")], Json.obj [("id", Json.str "c2")]]
    rfl (by decide)

/-- C8: whenever the channels-list response contains zero items, the
unguarded `response["items"][0]` surfaces an `IndexError` to the caller of
either resolver, and this error is distinct in kind from the
`RuntimeError` ambiguity error. -/
theorem c8_empty_resolution (response : Json)
    (h : response.get "items" = .ok (.arr [])) :
    channel_id response = .error .indexError
    ∧ uploads_id response = .error .indexError
    ∧ (∀ m, (PyError.indexError : PyError) ≠ .runtimeError m) := by
  refine ⟨?_, ?_, ?_⟩
  · simp [channel_id, h, asArr_arr, ok_bind, pyIndex, error_bind]
  · simp [uploads_id, h, asArr_arr, ok_bind, pyIndex, error_bind]
  · intro m hm
    exact PyError.noConfusion hm

/-- C8 witness: a response with an empty item list yields `IndexError`
from both resolvers. -/
theorem c8_empty_resolution_witness :
    channel_id (Json.obj [("items", Json.arr [])]) = .error .indexError
    ∧ uploads_id (Json.obj [("items", Json.arr [])]) = .error .indexError :=
  have h := c8_empty_resolution (Json.obj [("items", Json.arr [])]) rfl
  ⟨h.1, h.2.1⟩

/-! ## Column encoding -/

/-- C9 counterexample: `_fetch_video_batch` applies no string conversion
to the statistics counts; a numeric API value stays numeric in the batch
table it produces, refuting the claim that numeric API values are
converted to strings in the tables of both fetch operations. -/
theorem c9_string_encoding_counterexample :
    flattenVideoItem sampleVideoItemNum = .ok (some sampleNumRow)
    ∧ fetchVideoBatch
        (fun _ => .ok (Json.obj [("items", Json.arr [sampleVideoItemNum])]))
        [Json.str "vidN"] = .ok [sampleNumRow]
    ∧ sampleNumRow.view_cnt = Json.num 5
    ∧ sampleNumRow.comment_cnt = Json.num 1 :=
  ⟨rfl, rfl, rfl, rfl⟩

/-- C9 amended: in the comment table every numeric count is converted with
`str(...)` (`likeCount` and `totalReplyCount` become their decimal string
renderings), while `_fetch_video_batch` keeps the statistics counts
exactly as provided by the API with no conversion — the output schemas
declare every count column as text, so the video path relies on the API
providing strings rather than converting. -/
theorem c9_string_encoding_amended :
    (∀ (item sn tlc top c dt an : Json) (a b : Int),
       item.get "snippet" = .ok sn →
       sn.get "topLevelComment" = .ok tlc →
       tlc.get "snippet" = .ok top →
       top.get "textDisplay" = .ok c →
       top.get "publishedAt" = .ok dt →
       top.get "authorDisplayName" = .ok an →
       top.get "likeCount" = .ok (.num a) →
       sn.get "totalReplyCount" = .ok (.num b) →
       b ≤ 0 →
       flattenCommentItem item =
         .ok { comment := c, comment_dt := dt, user_name := an,
               like_cnt := toString a, reply_cnt := toString b,
               replies := [] })
    ∧ (∀ (item k idv snippet pdt ttl dsc tags stats vc lc fv cc : Json),
       item.get "kind" = .ok k →
       k.isStrEq "youtube#video" = true →
       item.get "id" = .ok idv →
       item.get "snippet" = .ok snippet →
       snippet.get "publishedAt" = .ok pdt →
       snippet.get "title" = .ok ttl →
       snippet.get "description" = .ok dsc →
       snippet.get "tags" = .ok tags →
       item.get "statistics" = .ok stats →
       stats.get "viewCount" = .ok vc →
       stats.get "likeCount" = .ok lc →
       stats.get "favoriteCount" = .ok fv →
       stats.get "commentCount" = .ok cc →
       (flattenVideoItem item).map (Option.map VideoRow.view_cnt)
         = .ok (some vc)
       ∧ (flattenVideoItem item).map (Option.map VideoRow.like_cnt)
         = .ok (some lc)
       ∧ (flattenVideoItem item).map (Option.map VideoRow.fave_cnt)
         = .ok (some fv)
       ∧ (flattenVideoItem item).map (Option.map VideoRow.comment_cnt)
         = .ok (some cc)) := by
  constructor
  · intro item sn tlc top c dt an a b h1 h2 h3 h4 h5 h6 h7 h8 hb
    have hnot : ¬(0 < b) := by omega
    simp [flattenCommentItem, h1, h2, h3, h4, h5, h6, h7, h8, Json.asInt,
      ok_bind, hnot, pyStr]
  · intro item k idv snippet pdt ttl dsc tags stats vc lc fv cc
      h1 h2 h3 h4 h5 h6 h7 h8 h9 h10 h11 h12 h13
    simp [flattenVideoItem, h1, h2, h3, h4, h5, h6, h7, h8, h9, h10, h11,
      h12, h13, ok_bind, Except.map]

/-- A comment-thread item with numeric `likeCount` 7 and zero replies. -/
def sampleCommentItemNum : Json := .obj [
  ("snippet", .obj [
    ("topLevelComment", .obj [("snippet", .obj [
      ("textDisplay", .str "yo"),
      ("publishedAt", .str "2024-05-05T00:00:00Z"),
      ("authorDisplayName", .str "bob"),
      ("likeCount", .num 7)])]),
    ("totalReplyCount", .num 0)])]

/-- C9 amended witness: a numeric `likeCount` of 7 becomes the string
rendering in the comment row, while the numeric video statistics of
`sampleVideoItemNum` are passed through unchanged. -/
theorem c9_string_encoding_amended_witness :
    flattenCommentItem sampleCommentItemNum
      = .ok { comment := .str "yo",
              comment_dt := .str "2024-05-05T00:00:00Z",
              user_name := .str "bob", like_cnt := "7", reply_cnt := "0",
              replies := [] }
    ∧ (flattenVideoItem sampleVideoItemNum).map (Option.map VideoRow.view_cnt)
        = .ok (some (Json.num 5))
    ∧ (flattenVideoItem sampleVideoItemNum).map (Option.map VideoRow.comment_cnt)
        = .ok (some (Json.num 1)) := by
  have h := c9_string_encoding_amended.2 sampleVideoItemNum _ _ _ _ _ _ _ _ _
    _ _ _ rfl rfl rfl rfl rfl rfl rfl rfl rfl rfl rfl rfl rfl
  exact ⟨(c9_string_encoding_amended.1 sampleCommentItemNum _ _ _ _ _ _ 7 0
      rfl rfl rfl rfl rfl rfl rfl rfl (by decide)).trans rfl,
    h.1, h.2.2.2⟩

/-! ## Kind filtering contrast -/

theorem flattenCommentItems_length :
    ∀ (items : List Json) (rows : List CommentRow),
      flattenCommentItems items = .ok rows → rows.length = items.length
  | [], rows, h => by
    rw [flattenCommentItems] at h
    cases h
    rfl
  | item :: rest, rows, h => by
    cases hi : flattenCommentItem item with
    | error e =>
      rw [flattenCommentItems, hi] at h
      simp [error_bind] at h
    | ok r =>
      cases hr : flattenCommentItems rest with
      | error e =>
        rw [flattenCommentItems, hi, ok_bind, hr] at h
        simp [error_bind] at h
      | ok rs =>
        rw [flattenCommentItems, hi, ok_bind, hr, ok_bind] at h
        have ih := flattenCommentItems_length rest rs hr
        cases h
        simp [ih]

theorem flattenVideoItems_drop (item : Json)
    (hnone : flattenVideoItem item = .ok none) :
    ∀ (pre post : List Json),
      flattenVideoItems (pre ++ item :: post) = flattenVideoItems (pre ++ post)
  | [], post => by
    simp only [List.nil_append]
    rw [flattenVideoItems, hnone, ok_bind]
    cases h2 : flattenVideoItems post with
    | error e => simp [error_bind]
    | ok rs => simp [ok_bind]
  | p :: pre, post => by
    have ih := flattenVideoItems_drop item hnone pre post
    simp only [List.cons_append]
    rw [flattenVideoItems, flattenVideoItems, ih]

/-- C10: `_fetch_comment_batch` flattens every response item into exactly
one row with no `kind` filter (the row count equals the item count
whenever the batch succeeds, regardless of any `kind` tags), in contrast
with `_fetch_video_batch` and the paginator, where an item whose `kind`
does not match contributes nothing. -/
theorem c10_no_kind_filter_in_comment_batch :
    (∀ (items : List Json) (rows : List CommentRow),
       flattenCommentItems items = .ok rows → rows.length = items.length)
    ∧ (∀ (pre post : List Json) (item k : Json),
       item.get "kind" = .ok k →
       k.isStrEq "youtube#video" = false →
       flattenVideoItems (pre ++ item :: post)
         = flattenVideoItems (pre ++ post))
    ∧ (∀ (item : Json) (rest : List Json),
       extractThreadId item = .ok none →
       processItems extractThreadId (item :: rest)
         = processItems extractThreadId rest) := by
  refine ⟨flattenCommentItems_length, ?_, ?_⟩
  · intro pre post item k hk hne
    have hnone : flattenVideoItem item = .ok none := by
      simp [flattenVideoItem, hk, hne, ok_bind, pure_eq_ok]
    exact flattenVideoItems_drop item hnone pre post
  · intro item rest h
    simp [processItems, h]

/-- The two rows `_fetch_comment_batch` builds from `sampleCommentItem`
and the `kind`-less `sampleCommentItemNoReplies`. -/
def sampleBatchRows : List CommentRow := [
  { comment := .str "great video", comment_dt := .str "2024-01-01T00:00:00Z",
    user_name := .str "alice", like_cnt := "3", reply_cnt := "2",
    replies := [.str "first", .str "second"] },
  { comment := .str "great video", comment_dt := .str "2024-01-01T00:00:00Z",
    user_name := .str "alice", like_cnt := "3", reply_cnt := "0",
    replies := [] }]

/-- C10 witness: a batch of two comment items — one of them carrying no
`kind` at all — yields two rows, while a stray-kind item in a video batch
or in the paginator contributes nothing. -/
theorem c10_no_kind_filter_in_comment_batch_witness :
    flattenCommentItems [sampleCommentItem, sampleCommentItemNoReplies]
        = .ok sampleBatchRows
    ∧ sampleBatchRows.length = 2
    ∧ flattenVideoItems [sampleVideoItem, strayItem]
        = flattenVideoItems [sampleVideoItem]
    ∧ processItems extractThreadId [strayItem, ctItem "t9"]
        = processItems extractThreadId [ctItem "t9"] := by
  obtain ⟨h1, h2, h3⟩ := c10_no_kind_filter_in_comment_batch
  exact ⟨rfl,
    (h1 [sampleCommentItem, sampleCommentItemNoReplies] sampleBatchRows
      rfl).trans rfl,
    h2 [sampleVideoItem] [] strayItem (.str "youtube#channel") rfl rfl,
    h3 strayItem [ctItem "t9"] rfl⟩
